import Mathlib

/-!
Verification of the arithmetic "calculator" tool of
`lesson_02_first_tool.py` (function `calculator`, lines 76-114).

The source evaluates the input string with the host language's general
expression evaluator (`eval`) under empty builtins and a fixed local
namespace, then formats the value (integral floats printed as integers)
and maps the caught exception classes to four error messages.

The embedding below models the fragment of the host expression language
that the calculator exposes: numeric literals, names, boolean literals,
the operators `+ - * / // % **`, comparisons, boolean `or`/`and`/`not`,
unary signs, calls of the allow-listed functions, attribute access on
numbers, and parentheses.  Host floats are idealised as exact rationals
(every concrete host float is a rational; the model's transcendental
helpers are rational approximations of the corresponding real functions,
which agrees with the host on every discrete fact used below).  Host
exceptions become an explicit error type, host strings stay `String`.
-/

/-- A value of the host expression language, restricted to the kinds an
input to the calculator can produce in the modelled fragment. -/
inductive PyVal : Type
  | vint (n : Int)
  | vbool (b : Bool)
  | vfloat (q : ℚ)
  | vcomplex (re im : ℚ)
  | vnone
  | vfun (f : String)
deriving Repr, DecidableEq

/-- The host's type name of a value, as used inside exception texts. -/
def PyVal.typeName : PyVal → String
  | .vint _ => "int"
  | .vbool _ => "bool"
  | .vfloat _ => "float"
  | .vcomplex _ _ => "complex"
  | .vnone => "NoneType"
  | .vfun _ => "builtin_function_or_method"

/-- Whether the value is a host float: the formatting branch of the
calculator (line 103) tests exactly this. -/
def PyVal.isFloat : PyVal → Bool
  | .vfloat _ => true
  | _ => false

/-- Whether the value is a complex number. -/
def PyVal.isComplex : PyVal → Bool
  | .vcomplex _ _ => true
  | _ => false

/-- The host exceptions the evaluation can raise, with the text that
`str(e)` would show.  `syntaxError` also covers rejection by the host
parser, which `eval` raises before any evaluation. -/
inductive PyExc : Type
  | zeroDiv (msg : String)
  | syntaxError
  | nameError (msg : String)
  | typeError (msg : String)
  | valueError (msg : String)
  | attributeError (msg : String)
deriving Repr, DecidableEq

/-- Decimal rendering of a host integer (`str` on `int`). -/
def intStr (n : Int) : String := toString n

/-- Decimal digits of the fractional part `q ∈ [0,1)`, at most `fuel`
digits (the host prints a float with finitely many digits; 17 suffice
for every double and are the model's cap). -/
def fracDigits (fuel : Nat) (q : ℚ) : String :=
  match fuel with
  | 0 => ""
  | Nat.succ f =>
    if q = 0 then ""
    else
      let d : Int := (q * 10).floor
      intStr d ++ fracDigits f (q * 10 - (d : ℚ))

/-- Decimal rendering of a nonnegative rational as the host renders a
float: integer part, a dot, then the fraction (`5.0`, `0.5`). -/
def ratDecimalNN (q : ℚ) : String :=
  let ip : Int := q.floor
  let ds := fracDigits 17 (q - (ip : ℚ))
  intStr ip ++ "." ++ (if ds = "" then "0" else ds)

/-- `str` on a host float, idealised to the exact decimal expansion of
the rational (truncated past 17 fractional digits). -/
def floatStr (q : ℚ) : String :=
  if q < 0 then "-" ++ ratDecimalNN (-q) else ratDecimalNN q

/-- One component of a complex number in `str` form: the host drops the
trailing `.0` of integral components (`str(2j) = "2j"`). -/
def complexPart (q : ℚ) : String :=
  if q.den = 1 then intStr q.num else floatStr q

/-- `str` on each modelled value, following the host's rendering. -/
def pyStr : PyVal → String
  | .vint n => intStr n
  | .vbool b => if b then "True" else "False"
  | .vfloat q => floatStr q
  | .vcomplex re im =>
      if re = 0 then
        (if im < 0 then "-" ++ complexPart (-im) else complexPart im) ++ "j"
      else
        "(" ++ complexPart re ++
          (if im < 0 then "-" ++ complexPart (-im) else "+" ++ complexPart im) ++ "j)"
  | .vnone => "None"
  | .vfun f => "<built-in function " ++ f ++ ">"

/-- Lines 102-105 of the source: an integral float is printed as
`str(int(result))`, every other value as `str(result)`. -/
def formatResult (v : PyVal) : String :=
  match v with
  | .vfloat q => if q.den = 1 then intStr q.num else pyStr (.vfloat q)
  | v => pyStr v

/-- Lines 107-114 of the source: the four `except` clauses, in order.
Division by zero has a fixed text; syntax and name errors echo the
expression; every other exception reaches the generic clause, which
echoes the expression and appends `str(e)`. -/
def renderErr (k : PyExc) (expr : String) : String :=
  match k with
  | .zeroDiv _ => "Error: Division by zero is not allowed"
  | .syntaxError => "Error: Invalid mathematical expression '" ++ expr ++ "'"
  | .nameError _ => "Error: Unknown function or variable in '" ++ expr ++ "'"
  | .typeError m => "Error: Could not evaluate '" ++ expr ++ "' - " ++ m
  | .valueError m => "Error: Could not evaluate '" ++ expr ++ "' - " ++ m
  | .attributeError m => "Error: Could not evaluate '" ++ expr ++ "' - " ++ m

/-!
Rational stand-ins for the host's real-valued library functions.  Host
floats are rationals and the host's results are rounded values of the
real functions; the model computes rational truncations of the same
functions.  No claim below depends on the low-order digits where the two
roundings differ.
-/

/-- The host's float value of pi (the IEEE double closest to pi,
an exact rational). -/
def piFloat : ℚ := (884279719003555 : ℚ) / 281474976710656

/-- The host's float value of Euler's number (the IEEE double closest to
it, an exact rational). -/
def eulerFloat : ℚ := (6121026514868073 : ℚ) / 2251799813685248

/-- Rational truncation of the exponential function (Taylor sum). -/
def ratExp (x : ℚ) : ℚ :=
  (List.range 18).foldl (fun (acc : ℚ) (k : Nat) => acc + x ^ k / (Nat.factorial k : ℚ)) 0

/-- Rational truncation of the natural logarithm of a positive rational,
via the artanh series; total (garbage outside `0 < x`, never used there). -/
def ratLn (x : ℚ) : ℚ :=
  let t := (x - 1) / (x + 1)
  (List.range 14).foldl (fun (acc : ℚ) (k : Nat) => acc + 2 * t ^ (2 * k + 1) / (2 * k + 1 : ℚ)) 0

/-- Rational truncation of the sine function (Taylor sum). -/
def ratSin (x : ℚ) : ℚ :=
  (List.range 10).foldl
    (fun (acc : ℚ) (k : Nat) => acc + (-1 : ℚ) ^ k * x ^ (2 * k + 1) / (Nat.factorial (2 * k + 1) : ℚ)) 0

/-- Rational truncation of the cosine function (Taylor sum). -/
def ratCos (x : ℚ) : ℚ :=
  (List.range 10).foldl
    (fun (acc : ℚ) (k : Nat) => acc + (-1 : ℚ) ^ k * x ^ (2 * k) / (Nat.factorial (2 * k) : ℚ)) 0

/-- Rational truncation of the square root of a nonnegative rational,
exact on squares of naturals. -/
def ratSqrt (q : ℚ) : ℚ :=
  let scale : Nat := 10 ^ 8
  let n : Nat := q.num.toNat * q.den
  (Nat.sqrt (n * scale * scale) : ℚ) / ((q.den * scale : Nat) : ℚ)

/-- Rational truncation of `b ^ q` for a positive base `b` and a
non-integral exponent, via `exp (q * ln b)`. -/
def ratPowPos (b q : ℚ) : ℚ := ratExp (q * ratLn b)

/-- The real part the host computes for a power with negative base `b`
and non-integral exponent `q` (polar form of the complex result):
the value of `|b| ^ q * cos (pi * q)`. -/
def powNegRe (b q : ℚ) : ℚ := ratPowPos (-b) q * ratCos (piFloat * q)

/-- The imaginary part of the same power: `|b| ^ q * sin (pi * q)`. -/
def powNegIm (b q : ℚ) : ℚ := ratPowPos (-b) q * ratSin (piFloat * q)

/-- The host's `round` on a float: nearest integer, ties to even. -/
def bankerRound (q : ℚ) : Int :=
  let n := q.floor
  let f := q - (n : ℚ)
  if f < 1 / 2 then n
  else if 1 / 2 < f then n + 1
  else if n % 2 = 0 then n else n + 1


/-!
The host tokenizer, on the covered fragment: numeric literals (decimal,
optional fraction and exponent), identifiers and keywords, the operator
and bracket tokens reachable through the calculator, and whitespace.  A
character outside these is a lexical failure, which `eval` surfaces as a
syntax error.
-/

/-- A lexical token of the host expression grammar. -/
inductive Tok : Type
  | num (isFloatLit : Bool) (q : ℚ)
  | ident (s : String)
  | kwTrue
  | kwFalse
  | kwNone
  | kwOr
  | kwAnd
  | kwNot
  | kwOther (s : String)
  | op (s : String)
deriving Repr, DecidableEq

/-- Decimal digit test. -/
def isDigitC (c : Char) : Bool := '0' ≤ c && c ≤ '9'

/-- First character of an identifier. -/
def isIdentStartC (c : Char) : Bool :=
  ('a' ≤ c && c ≤ 'z') || ('A' ≤ c && c ≤ 'Z') || c = '_'

/-- Later character of an identifier. -/
def isIdentC (c : Char) : Bool := isIdentStartC c || isDigitC c

/-- Value of a digit character. -/
def digitVal (c : Char) : Nat := c.toNat - '0'.toNat

/-- Consume a maximal run of digits, returning its value, its length and
the rest of the input. -/
def takeDigits : List Char → Nat → Nat → Nat × Nat × List Char
  | c :: cs, acc, len =>
      if isDigitC c then takeDigits cs (acc * 10 + digitVal c) (len + 1)
      else (acc, len, c :: cs)
  | [], acc, len => (acc, len, [])

/-- Consume a maximal identifier run. -/
def takeIdent : List Char → String → String × List Char
  | c :: cs, acc =>
      if isIdentC c then takeIdent cs (acc.push c)
      else (acc, c :: cs)
  | [], acc => (acc, [])

/-- The host's reserved words other than the ones the expression grammar
below gives a meaning to; any use of one in an expression is rejected by
the host parser. -/
def reservedWords : List String :=
  ["as", "assert", "async", "await", "break", "class", "continue", "def",
   "del", "elif", "else", "except", "finally", "for", "from", "global",
   "if", "import", "in", "is", "lambda", "nonlocal", "pass", "raise",
   "return", "try", "while", "with", "yield"]

/-- Classify a completed identifier run as a keyword or a name. -/
def classifyWord (w : String) : Tok :=
  if w = "True" then .kwTrue
  else if w = "False" then .kwFalse
  else if w = "None" then .kwNone
  else if w = "or" then .kwOr
  else if w = "and" then .kwAnd
  else if w = "not" then .kwNot
  else if reservedWords.contains w then .kwOther w
  else .ident w

/-- Read the part of a numeric literal after the integer digits: an
optional fraction and an optional exponent.  `ip` is the integer part,
`hadIntDigits` whether any digit preceded (distinguishing `.5`).
Returns `none` on a malformed exponent. -/
def lexNumTail (ip : Nat) (cs : List Char) : Option (Tok × List Char) :=
  let (fracVal, fracLen, cs1) :=
    match cs with
    | '.' :: rest => let (v, l, r) := takeDigits rest 0 0; (v, some l, r)
    | _ => (0, none, cs)
  let mantissa : ℚ := (ip : ℚ) + (fracVal : ℚ) / ((10 : ℚ) ^ fracLen.getD 0)
  match cs1 with
  | 'e' :: rest | 'E' :: rest =>
      let (sgn, rest1) :=
        match rest with
        | '+' :: r => ((1 : Int), r)
        | '-' :: r => ((-1 : Int), r)
        | r => ((1 : Int), r)
      let (ev, el, rest2) := takeDigits rest1 0 0
      if el = 0 then none
      else some (.num true (mantissa * (10 : ℚ) ^ (sgn * (ev : Int))), rest2)
  | _ =>
      match fracLen with
      | some _ => some (.num true mantissa, cs1)
      | none => some (.num false (ip : ℚ), cs1)

/-- One step of the tokenizer: the next token and the remaining input,
`none` at a character no token starts with. -/
def lexStep : List Char → Option (Option Tok × List Char)
  | [] => some (none, [])
  | c :: cs =>
      if c = ' ' || c = '\t' || c = '\n' || c = '\r' then some (none, cs)
      else if isDigitC c then
        let (ip, _, cs1) := takeDigits (c :: cs) 0 0
        match lexNumTail ip cs1 with
        | some (t, rest) => some (some t, rest)
        | none => none
      else if c = '.' then
        match cs with
        | d :: _ =>
            if isDigitC d then
              match lexNumTail 0 (c :: cs) with
              | some (t, rest) => some (some t, rest)
              | none => none
            else some (some (.op "."), cs)
        | [] => some (some (.op "."), cs)
      else if isIdentStartC c then
        let (w, cs1) := takeIdent (c :: cs) ""
        some (some (classifyWord w), cs1)
      else if c = '*' then
        match cs with
        | '*' :: r => some (some (.op "**"), r)
        | _ => some (some (.op "*"), cs)
      else if c = '/' then
        match cs with
        | '/' :: r => some (some (.op "//"), r)
        | _ => some (some (.op "/"), cs)
      else if c = '<' then
        match cs with
        | '=' :: r => some (some (.op "<="), r)
        | _ => some (some (.op "<"), cs)
      else if c = '>' then
        match cs with
        | '=' :: r => some (some (.op ">="), r)
        | _ => some (some (.op ">"), cs)
      else if c = '=' then
        match cs with
        | '=' :: r => some (some (.op "=="), r)
        | _ => none
      else if c = '!' then
        match cs with
        | '=' :: r => some (some (.op "!="), r)
        | _ => none
      else if c = '+' || c = '-' || c = '%' || c = '(' || c = ')' || c = ',' then
        some (some (.op (String.singleton c)), cs)
      else none

/-- The tokenizer: repeated `lexStep`, with fuel bounded by the input
length (every step consumes at least one character). -/
def lexAll (fuel : Nat) (cs : List Char) : Option (List Tok) :=
  match fuel with
  | 0 => match cs with | [] => some [] | _ :: _ => none
  | Nat.succ f =>
      match cs with
      | [] => some []
      | _ =>
          match lexStep cs with
          | none => none
          | some (t, rest) =>
              match lexAll f rest with
              | none => none
              | some ts => match t with | none => some ts | some tok => some (tok :: ts)

/-- Tokenize an input string. -/
def lexString (s : String) : Option (List Tok) :=
  lexAll s.length s.data

/-!
The host expression grammar on the covered fragment, with the host's
precedence: `or` < `and` < `not` < comparisons < `+ -` < `* / // %` <
unary sign < `**` (right associative, binding over a unary sign on its
left) < call and attribute trailers < atoms.  A token sequence outside
the grammar is a parse failure, which `eval` raises as a syntax error
before evaluating anything.
-/

/-- Binary arithmetic operators. -/
inductive BinOp : Type
  | add | sub | mul | div | floordiv | mod | pow
deriving Repr, DecidableEq

/-- Comparison operators. -/
inductive CmpOp : Type
  | lt | le | gt | ge | eq | ne
deriving Repr, DecidableEq

/-- The host expression tree on the covered fragment. -/
inductive PyExpr : Type
  | elit (v : PyVal)
  | ename (s : String)
  | eneg (e : PyExpr)
  | epos (e : PyExpr)
  | enot (e : PyExpr)
  | ebin (o : BinOp) (l r : PyExpr)
  | ecomp (o : CmpOp) (l r : PyExpr)
  | eor (l r : PyExpr)
  | eand (l r : PyExpr)
  | ecall (f : PyExpr) (args : List PyExpr)
  | eattr (e : PyExpr) (fld : String)
deriving Repr

mutual

/-- `or`-level parse. -/
def parseOr (fuel : Nat) (ts : List Tok) : Option (PyExpr × List Tok) :=
  match fuel with
  | 0 => none
  | Nat.succ f =>
      match parseAnd f ts with
      | none => none
      | some (l, rest) => parseOrLoop f l rest

/-- Left-associative continuation of `or`. -/
def parseOrLoop (fuel : Nat) (acc : PyExpr) (ts : List Tok) : Option (PyExpr × List Tok) :=
  match fuel with
  | 0 => none
  | Nat.succ f =>
      match ts with
      | .kwOr :: rest =>
          match parseAnd f rest with
          | none => none
          | some (r, rest1) => parseOrLoop f (.eor acc r) rest1
      | _ => some (acc, ts)

/-- `and`-level parse. -/
def parseAnd (fuel : Nat) (ts : List Tok) : Option (PyExpr × List Tok) :=
  match fuel with
  | 0 => none
  | Nat.succ f =>
      match parseNotE f ts with
      | none => none
      | some (l, rest) => parseAndLoop f l rest

/-- Left-associative continuation of `and`. -/
def parseAndLoop (fuel : Nat) (acc : PyExpr) (ts : List Tok) : Option (PyExpr × List Tok) :=
  match fuel with
  | 0 => none
  | Nat.succ f =>
      match ts with
      | .kwAnd :: rest =>
          match parseNotE f rest with
          | none => none
          | some (r, rest1) => parseAndLoop f (.eand acc r) rest1
      | _ => some (acc, ts)

/-- `not`-level parse. -/
def parseNotE (fuel : Nat) (ts : List Tok) : Option (PyExpr × List Tok) :=
  match fuel with
  | 0 => none
  | Nat.succ f =>
      match ts with
      | .kwNot :: rest =>
          match parseNotE f rest with
          | none => none
          | some (e, rest1) => some (.enot e, rest1)
      | _ => parseComp f ts

/-- Comparison-level parse (a single comparison of two arithmetic
expressions; operator chains lie outside the covered fragment). -/
def parseComp (fuel : Nat) (ts : List Tok) : Option (PyExpr × List Tok) :=
  match fuel with
  | 0 => none
  | Nat.succ f =>
      match parseArith f ts with
      | none => none
      | some (l, rest) =>
          let comp (o : CmpOp) (rest1 : List Tok) : Option (PyExpr × List Tok) :=
            match parseArith f rest1 with
            | none => none
            | some (r, rest2) => some (.ecomp o l r, rest2)
          match rest with
          | .op "<" :: rest1 => comp .lt rest1
          | .op "<=" :: rest1 => comp .le rest1
          | .op ">" :: rest1 => comp .gt rest1
          | .op ">=" :: rest1 => comp .ge rest1
          | .op "==" :: rest1 => comp .eq rest1
          | .op "!=" :: rest1 => comp .ne rest1
          | _ => some (l, rest)

/-- Additive-level parse. -/
def parseArith (fuel : Nat) (ts : List Tok) : Option (PyExpr × List Tok) :=
  match fuel with
  | 0 => none
  | Nat.succ f =>
      match parseTerm f ts with
      | none => none
      | some (l, rest) => parseArithLoop f l rest

/-- Left-associative continuation of `+` and `-`. -/
def parseArithLoop (fuel : Nat) (acc : PyExpr) (ts : List Tok) : Option (PyExpr × List Tok) :=
  match fuel with
  | 0 => none
  | Nat.succ f =>
      match ts with
      | .op "+" :: rest =>
          match parseTerm f rest with
          | none => none
          | some (r, rest1) => parseArithLoop f (.ebin .add acc r) rest1
      | .op "-" :: rest =>
          match parseTerm f rest with
          | none => none
          | some (r, rest1) => parseArithLoop f (.ebin .sub acc r) rest1
      | _ => some (acc, ts)

/-- Multiplicative-level parse. -/
def parseTerm (fuel : Nat) (ts : List Tok) : Option (PyExpr × List Tok) :=
  match fuel with
  | 0 => none
  | Nat.succ f =>
      match parseFactor f ts with
      | none => none
      | some (l, rest) => parseTermLoop f l rest

/-- Left-associative continuation of `*`, `/`, `//`, `%`. -/
def parseTermLoop (fuel : Nat) (acc : PyExpr) (ts : List Tok) : Option (PyExpr × List Tok) :=
  match fuel with
  | 0 => none
  | Nat.succ f =>
      let step (o : BinOp) (rest : List Tok) : Option (PyExpr × List Tok) :=
        match parseFactor f rest with
        | none => none
        | some (r, rest1) => parseTermLoop f (.ebin o acc r) rest1
      match ts with
      | .op "*" :: rest => step .mul rest
      | .op "/" :: rest => step .div rest
      | .op "//" :: rest => step .floordiv rest
      | .op "%" :: rest => step .mod rest
      | _ => some (acc, ts)

/-- Unary-sign-level parse (`-2 ** 2` is the negation of the power). -/
def parseFactor (fuel : Nat) (ts : List Tok) : Option (PyExpr × List Tok) :=
  match fuel with
  | 0 => none
  | Nat.succ f =>
      match ts with
      | .op "-" :: rest =>
          match parseFactor f rest with
          | none => none
          | some (e, rest1) => some (.eneg e, rest1)
      | .op "+" :: rest =>
          match parseFactor f rest with
          | none => none
          | some (e, rest1) => some (.epos e, rest1)
      | _ => parsePower f ts

/-- Power-level parse: right-associative `**`, whose right operand is a
factor so that `2 ** -1` parses. -/
def parsePower (fuel : Nat) (ts : List Tok) : Option (PyExpr × List Tok) :=
  match fuel with
  | 0 => none
  | Nat.succ f =>
      match parsePostfix f ts with
      | none => none
      | some (b, rest) =>
          match rest with
          | .op "**" :: rest1 =>
              match parseFactor f rest1 with
              | none => none
              | some (e, rest2) => some (.ebin .pow b e, rest2)
          | _ => some (b, rest)

/-- Postfix-level parse: an atom followed by call and attribute
trailers. -/
def parsePostfix (fuel : Nat) (ts : List Tok) : Option (PyExpr × List Tok) :=
  match fuel with
  | 0 => none
  | Nat.succ f =>
      match parseAtom f ts with
      | none => none
      | some (a, rest) => parseTrailers f a rest

/-- Consume call and attribute trailers. -/
def parseTrailers (fuel : Nat) (acc : PyExpr) (ts : List Tok) : Option (PyExpr × List Tok) :=
  match fuel with
  | 0 => none
  | Nat.succ f =>
      match ts with
      | .op "(" :: .op ")" :: rest => parseTrailers f (.ecall acc []) rest
      | .op "(" :: rest =>
          match parseArgs f rest with
          | none => none
          | some (args, rest1) =>
              match rest1 with
              | .op ")" :: rest2 => parseTrailers f (.ecall acc args) rest2
              | _ => none
      | .op "." :: .ident fld :: rest => parseTrailers f (.eattr acc fld) rest
      | _ => some (acc, ts)

/-- Comma-separated argument list (at least one argument). -/
def parseArgs (fuel : Nat) (ts : List Tok) : Option (List PyExpr × List Tok) :=
  match fuel with
  | 0 => none
  | Nat.succ f =>
      match parseOr f ts with
      | none => none
      | some (a, rest) =>
          match rest with
          | .op "," :: rest1 =>
              match parseArgs f rest1 with
              | none => none
              | some (as_, rest2) => some (a :: as_, rest2)
          | _ => some ([a], rest)

/-- Atom-level parse: a literal, a name, or a parenthesised
expression. -/
def parseAtom (fuel : Nat) (ts : List Tok) : Option (PyExpr × List Tok) :=
  match fuel with
  | 0 => none
  | Nat.succ f =>
      match ts with
      | .num isF q :: rest =>
          some (.elit (if isF then .vfloat q else .vint q.num), rest)
      | .ident s :: rest => some (.ename s, rest)
      | .kwTrue :: rest => some (.elit (.vbool true), rest)
      | .kwFalse :: rest => some (.elit (.vbool false), rest)
      | .kwNone :: rest => some (.elit .vnone, rest)
      | .op "(" :: rest =>
          match parseOr f rest with
          | none => none
          | some (e, rest1) =>
              match rest1 with
              | .op ")" :: rest2 => some (e, rest2)
              | _ => none
      | _ => none

end

/-- Parse a whole token sequence as one expression; leftover tokens are
a parse failure. -/
def parseExpression (ts : List Tok) : Option PyExpr :=
  match parseOr (20 * (ts.length + 2)) ts with
  | some (e, []) => some e
  | _ => none

/-!
The host's evaluation of the covered fragment.  Integer arithmetic is
exact; mixing in a float promotes to float (true division always gives a
float); mixing in a complex number promotes to complex.  Division by a
zero divisor raises the zero-division exception, operand kinds outside
an operator's domain raise a type error, and a name that resolves
against neither namespace raises a name error at the moment the name is
evaluated.
-/

/-- An int-like operand: the host treats `bool` as an integer in
arithmetic. -/
def PyVal.intLike : PyVal → Option Int
  | .vint n => some n
  | .vbool b => some (if b then 1 else 0)
  | _ => none

/-- A real-number operand coerced to the float domain. -/
def PyVal.toQ : PyVal → Option ℚ
  | .vint n => some (n : ℚ)
  | .vbool b => some (if b then 1 else 0)
  | .vfloat q => some q
  | _ => none

/-- Any numeric operand coerced to the complex domain. -/
def PyVal.toC : PyVal → Option (ℚ × ℚ)
  | .vint n => some ((n : ℚ), 0)
  | .vbool b => some ((if b then 1 else 0), 0)
  | .vfloat q => some (q, 0)
  | .vcomplex re im => some (re, im)
  | _ => none

/-- The host's truth test on the covered values. -/
def truthy : PyVal → Bool
  | .vint n => decide (n ≠ 0)
  | .vbool b => b
  | .vfloat q => decide (q ≠ 0)
  | .vcomplex re im => decide (re ≠ 0 ∨ im ≠ 0)
  | .vnone => false
  | .vfun _ => true

/-- The unsupported-operand type error text. -/
def binTypeError (opName : String) (a b : PyVal) : PyExc :=
  .typeError ("unsupported operand type(s) for " ++ opName ++ ": '" ++
    a.typeName ++ "' and '" ++ b.typeName ++ "'")

/-- Addition, subtraction and multiplication share the numeric
promotion ladder. -/
def arithVal (opName : String)
    (fi : Int → Int → Int) (fq : ℚ → ℚ → ℚ)
    (fc : ℚ × ℚ → ℚ × ℚ → ℚ × ℚ) (a b : PyVal) : Except PyExc PyVal :=
  match a.intLike, b.intLike with
  | some m, some n => .ok (.vint (fi m n))
  | _, _ =>
      match a.toQ, b.toQ with
      | some x, some y => .ok (.vfloat (fq x y))
      | _, _ =>
          match a.toC, b.toC with
          | some x, some y => let (re, im) := fc x y; .ok (.vcomplex re im)
          | _, _ => .error (binTypeError opName a b)

/-- True division: the result is a float (or complex), a zero divisor
raises the zero-division exception. -/
def divVal (a b : PyVal) : Except PyExc PyVal :=
  match a.toQ, b.toQ with
  | some x, some y =>
      if y = 0 then
        .error (.zeroDiv (if a.intLike.isSome ∧ b.intLike.isSome
          then "division by zero" else "float division by zero"))
      else .ok (.vfloat (x / y))
  | _, _ =>
      match a.toC, b.toC with
      | some (xr, xi), some (yr, yi) =>
          if yr = 0 ∧ yi = 0 then .error (.zeroDiv "complex division by zero")
          else
            let d := yr * yr + yi * yi
            .ok (.vcomplex ((xr * yr + xi * yi) / d) ((xi * yr - xr * yi) / d))
      | _, _ => .error (binTypeError "/" a b)

/-- Floor division and modulo; the host rejects complex operands
here. -/
def floorModVal (isMod : Bool) (a b : PyVal) : Except PyExc PyVal :=
  match a.intLike, b.intLike with
  | some m, some n =>
      if n = 0 then .error (.zeroDiv "integer division or modulo by zero")
      else .ok (.vint (if isMod then Int.fmod m n else Int.fdiv m n))
  | _, _ =>
      match a.toQ, b.toQ with
      | some x, some y =>
          if y = 0 then
            .error (.zeroDiv (if isMod then "float modulo" else "float floor division"))
          else
            let f : Int := (x / y).floor
            .ok (.vfloat (if isMod then x - y * (f : ℚ) else (f : ℚ)))
      | _, _ => .error (binTypeError (if isMod then "%" else "//") a b)

/-- Integer power of a complex number, exact (used only when the
exponent is int-like). -/
def cpowNat : Nat → ℚ × ℚ → ℚ × ℚ
  | 0, _ => (1, 0)
  | Nat.succ k, z =>
      let (re, im) := cpowNat k z
      (re * z.1 - im * z.2, re * z.2 + im * z.1)

/-- The host's power operator on the covered operands.  Int-like
operands with a nonnegative exponent stay integers; a negative integer
exponent gives a float; a non-integral exponent over a negative base
gives a complex number (the host converts to the complex domain rather
than raising). -/
def powVal (a b : PyVal) : Except PyExc PyVal :=
  match a.intLike, b.intLike with
  | some m, some n =>
      if 0 ≤ n then .ok (.vint (m ^ n.toNat))
      else if m = 0 then .error (.zeroDiv "0.0 cannot be raised to a negative power")
      else .ok (.vfloat ((m : ℚ) ^ n))
  | _, _ =>
      match a.toQ, b.toQ with
      | some x, some y =>
          if y.den = 1 then
            if x = 0 ∧ y < 0 then
              .error (.zeroDiv "0.0 cannot be raised to a negative power")
            else .ok (.vfloat (x ^ y.num))
          else if 0 < x then .ok (.vfloat (ratPowPos x y))
          else if x = 0 then
            if 0 < y then .ok (.vfloat 0)
            else .error (.zeroDiv "0.0 cannot be raised to a negative power")
          else .ok (.vcomplex (powNegRe x y) (powNegIm x y))
      | _, _ =>
          match a.toC, b.intLike with
          | some z, some n =>
              if 0 ≤ n then
                let (re, im) := cpowNat n.toNat z
                .ok (.vcomplex re im)
              else
                let (re, im) := cpowNat n.natAbs z
                let d := re * re + im * im
                if d = 0 then .error (.zeroDiv "0.0 to a negative or complex power")
                else .ok (.vcomplex (re / d) (-im / d))
          | _, _ =>
              match a.toC, b.toC with
              | some _, some _ =>
                  .error (.typeError "complex power outside the modelled fragment")
              | _, _ => .error (binTypeError "** or pow()" a b)

/-- Dispatch of the binary arithmetic operators. -/
def binVal : BinOp → PyVal → PyVal → Except PyExc PyVal
  | .add, a, b =>
      arithVal "+" (· + ·) (· + ·)
        (fun x y => (x.1 + y.1, x.2 + y.2)) a b
  | .sub, a, b =>
      arithVal "-" (· - ·) (· - ·)
        (fun x y => (x.1 - y.1, x.2 - y.2)) a b
  | .mul, a, b =>
      arithVal "*" (· * ·) (· * ·)
        (fun x y => (x.1 * y.1 - x.2 * y.2, x.1 * y.2 + x.2 * y.1)) a b
  | .div, a, b => divVal a b
  | .floordiv, a, b => floorModVal false a b
  | .mod, a, b => floorModVal true a b
  | .pow, a, b => powVal a b

/-- Equality of the covered values as the host compares them: numbers
by numeric value across kinds, other kinds by identity of the modelled
object; distinct kinds are unequal, never an error. -/
def pyEq (a b : PyVal) : Bool :=
  match a.toC, b.toC with
  | some x, some y => decide (x = y)
  | _, _ =>
      match a, b with
      | .vnone, .vnone => true
      | .vfun f, .vfun g => f = g
      | _, _ => false

/-- Ordering comparisons: defined on the real-number operands, a type
error elsewhere (complex numbers and non-numbers are unordered). -/
def cmpVal (o : CmpOp) (a b : PyVal) : Except PyExc PyVal :=
  match o with
  | .eq => .ok (.vbool (pyEq a b))
  | .ne => .ok (.vbool (! pyEq a b))
  | _ =>
      match a.toQ, b.toQ with
      | some x, some y =>
          .ok (.vbool (match o with
            | .lt => decide (x < y)
            | .le => decide (x ≤ y)
            | .gt => decide (y < x)
            | .ge => decide (y ≤ x)
            | _ => false))
      | _, _ =>
          let sym := match o with
            | .lt => "<"
            | .le => "<="
            | .gt => ">"
            | .ge => ">="
            | _ => "=="
          .error (.typeError ("'" ++ sym ++ "' not supported between instances of '" ++
            a.typeName ++ "' and '" ++ b.typeName ++ "'"))

/-- Unary minus on the covered values. -/
def negVal (a : PyVal) : Except PyExc PyVal :=
  match a.intLike with
  | some m => .ok (.vint (-m))
  | none =>
      match a with
      | .vfloat q => .ok (.vfloat (-q))
      | .vcomplex re im => .ok (.vcomplex (-re) (-im))
      | _ => .error (.typeError ("bad operand type for unary -: '" ++ a.typeName ++ "'"))

/-- Unary plus on the covered values. -/
def posVal (a : PyVal) : Except PyExc PyVal :=
  match a.intLike with
  | some m => .ok (.vint m)
  | none =>
      match a with
      | .vfloat q => .ok (.vfloat q)
      | .vcomplex re im => .ok (.vcomplex re im)
      | _ => .error (.typeError ("bad operand type for unary +: '" ++ a.typeName ++ "'"))

/-- Attribute access on the covered values: the numeric attributes of
the modelled fragment; any other attribute is an attribute error in the
model. -/
def getAttrVal (v : PyVal) (fld : String) : Except PyExc PyVal :=
  let noAttr : Except PyExc PyVal :=
    .error (.attributeError ("'" ++ v.typeName ++ "' object has no attribute '" ++ fld ++ "'"))
  match v with
  | .vint n =>
      if fld = "real" then .ok (.vint n)
      else if fld = "imag" then .ok (.vint 0)
      else if fld = "numerator" then .ok (.vint n)
      else if fld = "denominator" then .ok (.vint 1)
      else noAttr
  | .vbool b =>
      if fld = "real" then .ok (.vint (if b then 1 else 0))
      else if fld = "imag" then .ok (.vint 0)
      else noAttr
  | .vfloat q =>
      if fld = "real" then .ok (.vfloat q)
      else if fld = "imag" then .ok (.vfloat 0)
      else noAttr
  | .vcomplex re im =>
      if fld = "real" then .ok (.vfloat re)
      else if fld = "imag" then .ok (.vfloat im)
      else noAttr
  | _ => noAttr

/-!
The allow-listed callables: the safe builtins `abs round min max pow`
and the math-module functions `sqrt sin cos tan` added on lines 83-97 of
the source, applied with the host's arity and domain checks.
-/

/-- `abs` on the covered values. -/
def absVal (v : PyVal) : Except PyExc PyVal :=
  match v.intLike with
  | some m => .ok (.vint m.natAbs)
  | none =>
      match v with
      | .vfloat q => .ok (.vfloat (abs q))
      | .vcomplex re im => .ok (.vfloat (ratSqrt (re * re + im * im)))
      | _ => .error (.typeError ("bad operand type for abs(): '" ++ v.typeName ++ "'"))

/-- `round` with one argument: ties to even, an integer result. -/
def roundVal (v : PyVal) : Except PyExc PyVal :=
  match v.intLike with
  | some m => .ok (.vint m)
  | none =>
      match v with
      | .vfloat q => .ok (.vint (bankerRound q))
      | _ => .error (.typeError ("type " ++ v.typeName ++ " doesn't define __round__ method"))

/-- `round` with a digit count: the host rounds at that decimal place
and keeps the argument's kind. -/
def roundDigitsVal (v : PyVal) (nd : Int) : Except PyExc PyVal :=
  match v.intLike with
  | some m => .ok (.vint (bankerRound ((m : ℚ) * (10 : ℚ) ^ nd) * (10 : ℚ) ^ (-nd)).floor)
  | none =>
      match v with
      | .vfloat q => .ok (.vfloat ((bankerRound (q * (10 : ℚ) ^ nd) : ℚ) * (10 : ℚ) ^ (-nd)))
      | _ => .error (.typeError ("type " ++ v.typeName ++ " doesn't define __round__ method"))

/-- `min`/`max` over the real-number operands, returning the original
object; on ties the first argument, as the host does. -/
def minMaxVal (isMin : Bool) (name : String) (vs : List PyVal) : Except PyExc PyVal :=
  match vs with
  | [] => .error (.typeError (name ++ " expected at least 1 argument, got 0"))
  | [v] => .error (.typeError ("'" ++ v.typeName ++ "' object is not iterable"))
  | v :: rest =>
      rest.foldlM (fun best w =>
        match best.toQ, w.toQ with
        | some x, some y =>
            .ok (if isMin then (if y < x then w else best) else (if x < y then w else best))
        | _, _ =>
            .error (.typeError ("'<' not supported between instances of '" ++
              w.typeName ++ "' and '" ++ best.typeName ++ "'"))) v

/-- `math.sqrt`: a float result, a value error outside the domain, and
a type error on complex input (the host cannot convert it to float). -/
def sqrtVal (v : PyVal) : Except PyExc PyVal :=
  match v.toQ with
  | some q =>
      if q < 0 then .error (.valueError "math domain error")
      else .ok (.vfloat (ratSqrt q))
  | none => .error (.typeError "must be real number, not complex")

/-- A one-argument math-module trigonometric function. -/
def trigVal (f : ℚ → ℚ) (v : PyVal) : Except PyExc PyVal :=
  match v.toQ with
  | some q => .ok (.vfloat (f q))
  | none => .error (.typeError "must be real number, not complex")

/-- Wrong-arity text for a fixed-arity callable. -/
def arityError (name : String) (want : String) (got : Nat) : PyExc :=
  .typeError (name ++ "() takes " ++ want ++ " (" ++ toString got ++ " given)")

/-- Apply an allow-listed callable to its evaluated arguments. -/
def applyBuiltin (f : String) (args : List PyVal) : Except PyExc PyVal :=
  if f = "abs" then
    match args with
    | [v] => absVal v
    | _ => .error (arityError "abs" "exactly one argument" args.length)
  else if f = "round" then
    match args with
    | [v] => roundVal v
    | [v, n] =>
        match n.intLike with
        | some nd => roundDigitsVal v nd
        | none => .error (.typeError ("'" ++ n.typeName ++ "' object cannot be interpreted as an integer"))
    | _ => .error (arityError "round" "at most 2 arguments" args.length)
  else if f = "min" then minMaxVal true "min" args
  else if f = "max" then minMaxVal false "max" args
  else if f = "pow" then
    match args with
    | [a, b] => powVal a b
    | _ => .error (arityError "pow" "2 arguments" args.length)
  else if f = "sqrt" then
    match args with
    | [v] => sqrtVal v
    | _ => .error (arityError "sqrt" "exactly one argument" args.length)
  else if f = "sin" then
    match args with
    | [v] => trigVal ratSin v
    | _ => .error (arityError "sin" "exactly one argument" args.length)
  else if f = "cos" then
    match args with
    | [v] => trigVal ratCos v
    | _ => .error (arityError "cos" "exactly one argument" args.length)
  else if f = "tan" then
    match args with
    | [v] => trigVal (fun q => if ratCos q = 0 then 0 else ratSin q / ratCos q) v
    | _ => .error (arityError "tan" "exactly one argument" args.length)
  else .error (.typeError ("'" ++ f ++ "' is not a modelled callable"))

/-- Call a value: only the allow-listed function objects are
callable. -/
def callVal (f : PyVal) (args : List PyVal) : Except PyExc PyVal :=
  match f with
  | .vfun name => applyBuiltin name args
  | _ => .error (.typeError ("'" ++ f.typeName ++ "' object is not callable"))

mutual

/-- The host's evaluation of the covered fragment against a local
namespace `tbl` (the calculator's `allowed_names`), with empty global
builtins.  Operands evaluate left to right; `or` and `and` short
circuit; a name outside `tbl` raises a name error when reached. -/
def evalExpr (tbl : List (String × PyVal)) : PyExpr → Except PyExc PyVal
  | .elit v => .ok v
  | .ename s =>
      match tbl.lookup s with
      | some v => .ok v
      | none => .error (.nameError ("name '" ++ s ++ "' is not defined"))
  | .eneg e => do negVal (← evalExpr tbl e)
  | .epos e => do posVal (← evalExpr tbl e)
  | .enot e => do .ok (.vbool (! truthy (← evalExpr tbl e)))
  | .ebin o l r => do
      let a ← evalExpr tbl l
      let b ← evalExpr tbl r
      binVal o a b
  | .ecomp o l r => do
      let a ← evalExpr tbl l
      let b ← evalExpr tbl r
      cmpVal o a b
  | .eor l r => do
      let a ← evalExpr tbl l
      if truthy a then .ok a else evalExpr tbl r
  | .eand l r => do
      let a ← evalExpr tbl l
      if truthy a then evalExpr tbl r else .ok a
  | .ecall f args => do
      let fv ← evalExpr tbl f
      let avs ← evalArgs tbl args
      callVal fv avs
  | .eattr e fld => do getAttrVal (← evalExpr tbl e) fld

/-- Left-to-right evaluation of an argument list. -/
def evalArgs (tbl : List (String × PyVal)) : List PyExpr → Except PyExc (List PyVal)
  | [] => .ok []
  | a :: rest => do
      let v ← evalExpr tbl a
      let vs ← evalArgs tbl rest
      .ok (v :: vs)

end

/-!
The calculator.  Lines 83-97 of the source rebuild the allow-list on
every call from the process-wide `builtins` and `math` modules; line 100
evaluates the input against it with empty global builtins; lines 102-105
format the value and lines 107-114 classify the caught exceptions.
-/

/-- The process-wide state the calculator reads: the `builtins` module
dictionary and the numeric members of the `math` module (the module
functions are code, carried by name). -/
structure PyEnv : Type where
  builtinsMod : List (String × PyVal)
  mathPi : ℚ
  mathE : ℚ
deriving Repr, DecidableEq

/-- Line 83 of the source: the allow-listed builtin names. -/
def safeBuiltins : List String := ["abs", "round", "min", "max", "pow"]

/-- Lines 84-97 of the source: the loop copying each safe builtin that
the `builtins` module has, then the update adding the math constants and
functions.  The two key sets are disjoint, so the dictionary's
last-write-wins update agrees with this list's first-match lookup. -/
def allowedNames (env : PyEnv) : List (String × PyVal) :=
  (safeBuiltins.foldl (fun acc n =>
      match env.builtinsMod.lookup n with
      | some v => acc ++ [(n, v)]
      | none => acc) []) ++
    [("pi", .vfloat env.mathPi), ("e", .vfloat env.mathE),
     ("sqrt", .vfun "sqrt"), ("sin", .vfun "sin"),
     ("cos", .vfun "cos"), ("tan", .vfun "tan")]

/-- The actual interpreter state: `builtins` has all five safe names
bound to the corresponding function objects, and `math` has the float
constants. -/
def stdEnv : PyEnv :=
  { builtinsMod :=
      [("abs", .vfun "abs"), ("round", .vfun "round"), ("min", .vfun "min"),
       ("max", .vfun "max"), ("pow", .vfun "pow")],
    mathPi := piFloat,
    mathE := eulerFloat }

/-- Line 100 of the source: `eval` of the input against the local
namespace `tbl` — the host parses the whole string first (failures are
syntax errors) and only then evaluates. -/
def calcEvalWith (tbl : List (String × PyVal)) (s : String) : Except PyExc PyVal :=
  match lexString s with
  | none => .error .syntaxError
  | some ts =>
      match parseExpression ts with
      | none => .error .syntaxError
      | some ast => evalExpr tbl ast

/-- The evaluation the calculator performs on input `s`. -/
def calcEval (s : String) : Except PyExc PyVal :=
  calcEvalWith (allowedNames stdEnv) s

/-- The calculator against an explicit environment. -/
def calculatorWith (env : PyEnv) (s : String) : String :=
  match calcEvalWith (allowedNames env) s with
  | .ok v => formatResult v
  | .error k => renderErr k s

/-- The function `calculator` of the source (lines 76-114): evaluate,
format on success, classify the exception on failure. -/
def calculator (s : String) : String :=
  calculatorWith stdEnv s

/-- The calculator as a state transformer on the process-wide state: the
source body performs no assignment outside its own frame, so the state
passes through unchanged. -/
def calculatorCall (s : String) (env : PyEnv) : String × PyEnv :=
  (calculatorWith env s, env)

/-!
Proof infrastructure.  The library marks the rational operations
irreducible, which blocks `decide` on concrete runs of the interpreter;
they are restored to ordinary unfolding here.  String facts are stated
through two executable character-list predicates.
-/

set_option allowUnsafeReducibility true

attribute [semireducible] Rat.add Rat.mul Rat.inv Rat.sub Rat.ofScientific

set_option maxRecDepth 20000

/-- Whether `pre` is a prefix of `hay`, on the character lists. -/
def strStarts (hay pre : String) : Bool := pre.data.isPrefixOf hay.data

/-- Whether `needle` occurs as a contiguous substring. -/
def containsSub (needle : List Char) : List Char → Bool
  | [] => needle.isEmpty
  | c :: rest => needle.isPrefixOf (c :: rest) || containsSub needle rest

/-- Whether the string `needle` occurs inside `hay`. -/
def strContains (hay needle : String) : Bool := containsSub needle.data hay.data

/-- Every classified error message begins with the literal prefix. -/
theorem renderErr_starts_error (k : PyExc) (s : String) :
    strStarts (renderErr k s) "Error:" = true := by
  cases k <;> simp [renderErr, strStarts, String.data_append, List.isPrefixOf]

/-- C1: the claim says any attribute access in the input is classified
as SyntaxError or UnknownName and never succeeds; on the code, the
attribute access `(1).real` evaluates successfully and the calculator
returns its value through the success path. -/
theorem calculator_attribute_access_succeeds :
    calculator "(1).real" = "1" ∧ calcEval "(1).real" = Except.ok (PyVal.vint 1) :=
  ⟨by decide, rfl⟩

/-- C2: on every input string the calculator terminates and returns
either the formatted value of a successful evaluation or exactly one of
the four classified error messages; no failure escapes unclassified. -/
theorem calculator_total_classified (s : String) :
    (∃ v, calcEval s = Except.ok v ∧ calculator s = formatResult v) ∨
    calculator s = "Error: Division by zero is not allowed" ∨
    calculator s = "Error: Invalid mathematical expression '" ++ s ++ "'" ∨
    calculator s = "Error: Unknown function or variable in '" ++ s ++ "'" ∨
    (∃ d, calculator s = "Error: Could not evaluate '" ++ s ++ "' - " ++ d) := by
  have hdef : calculator s = match calcEval s with
      | .ok v => formatResult v
      | .error k => renderErr k s := rfl
  cases h : calcEval s with
  | ok v => exact Or.inl ⟨v, rfl, by rw [hdef, h]⟩
  | error k =>
      rw [hdef, h]
      cases k with
      | zeroDiv m => exact Or.inr (Or.inl rfl)
      | syntaxError => exact Or.inr (Or.inr (Or.inl rfl))
      | nameError m => exact Or.inr (Or.inr (Or.inr (Or.inl rfl)))
      | typeError m => exact Or.inr (Or.inr (Or.inr (Or.inr ⟨m, rfl⟩)))
      | valueError m => exact Or.inr (Or.inr (Or.inr (Or.inr ⟨m, rfl⟩)))
      | attributeError m => exact Or.inr (Or.inr (Or.inr (Or.inr ⟨m, rfl⟩)))

/-- C3 counterexample: the claim says every surfaced error message
includes the offending expression, in particular that the division-by-
zero error for `10 / 0` references the text `10 / 0`; on the code, that
message is a fixed string that does not contain the expression. -/
theorem divzero_message_omits_expression :
    calculator "10 / 0" = "Error: Division by zero is not allowed" ∧
    strContains (calculator "10 / 0") "10 / 0" = false := ⟨by decide, by decide⟩

/-- C3 as amended: the syntax-error and unknown-name messages echo the
offending expression; the division-by-zero message is fixed text without
it; and the generic evaluation-error message includes both the
expression and the host exception's own text. -/
theorem calculator_error_message_shapes (s : String) (k : PyExc)
    (h : calcEval s = Except.error k) :
    (∀ m, k = PyExc.zeroDiv m → calculator s = "Error: Division by zero is not allowed") ∧
    (k = PyExc.syntaxError → calculator s = "Error: Invalid mathematical expression '" ++ s ++ "'") ∧
    (∀ m, k = PyExc.nameError m → calculator s = "Error: Unknown function or variable in '" ++ s ++ "'") ∧
    (∀ m, (k = PyExc.typeError m ∨ k = PyExc.valueError m ∨ k = PyExc.attributeError m) →
      calculator s = "Error: Could not evaluate '" ++ s ++ "' - " ++ m) := by
  have hdef : calculator s = match calcEval s with
      | .ok v => formatResult v
      | .error k => renderErr k s := rfl
  rw [hdef, h]
  refine ⟨?_, ?_, ?_, ?_⟩
  · intro m hm; subst hm; rfl
  · intro hm; subst hm; rfl
  · intro m hm; subst hm; rfl
  · intro m hm
    rcases hm with hm | hm | hm <;> subst hm <;> rfl

/-- C3 witness: the division of ten by zero raises the zero-division
exception and surfaces the fixed message. -/
theorem calculator_error_message_shapes_witness :
    calcEval "10 / 0" = Except.error (PyExc.zeroDiv "division by zero") ∧
    calculator "10 / 0" = "Error: Division by zero is not allowed" :=
  ⟨rfl, (calculator_error_message_shapes "10 / 0" (PyExc.zeroDiv "division by zero") rfl).1
    "division by zero" rfl⟩

/-- C4 counterexample: the claim says a power with fractional exponent
and negative base is classified as EvaluationError and never returns a
success string; on the code, `(-4) ** 0.5` evaluates to a complex number
and the calculator output is a success string, not an error. -/
theorem neg_base_fractional_pow_succeeds :
    ((calcEval "(-4) ** 0.5").toOption.map PyVal.isComplex) = some true ∧
    strStarts (calculator "(-4) ** 0.5") "Error:" = false := ⟨by decide, by decide⟩

/-- C4 as amended: a power with a negative float base and a non-integral
float exponent evaluates, without any error, to the complex number the
host computes in polar form, which the calculator then returns through
its success path. -/
theorem pow_neg_base_fractional_exponent_complex (b q : ℚ) (hb : b < 0) (hq : q.den ≠ 1) :
    powVal (PyVal.vfloat b) (PyVal.vfloat q) =
      Except.ok (PyVal.vcomplex (powNegRe b q) (powNegIm b q)) := by
  simp [powVal, PyVal.intLike, PyVal.toQ, hq, hb.ne, lt_asymm hb]

/-- C4 witness: the power with base minus four and exponent one half. -/
theorem pow_neg_base_fractional_exponent_complex_witness :
    (-4 : ℚ) < 0 ∧ ((1 : ℚ) / 2).den ≠ 1 ∧
    powVal (PyVal.vfloat (-4)) (PyVal.vfloat (1 / 2)) =
      Except.ok (PyVal.vcomplex (powNegRe (-4) (1 / 2)) (powNegIm (-4) (1 / 2))) :=
  ⟨by norm_num, by decide,
    pow_neg_base_fractional_exponent_complex (-4) (1 / 2) (by norm_num) (by decide)⟩

/-- C5 counterexample: the claim says every input using a character
sequence outside the documented grammar fails lexically, naming
`10 % 3`; on the code, that input evaluates successfully to `1`. -/
theorem modulo_operator_input_succeeds :
    calculator "10 % 3" = "1" ∧
    calculator "10 % 3" ≠ "Error: Invalid mathematical expression '10 % 3'" :=
  ⟨by decide, by decide⟩

/-- C5 as amended: the code accepts the host language's full expression
grammar, so operators outside the documented set, such as `%` and `<`,
evaluate successfully; only strings the host parser rejects are
classified as invalid expressions. -/
theorem host_grammar_exceeds_documented_grammar :
    calculator "10 % 3" = "1" ∧ calculator "1 < 2" = "True" ∧
    calculator "10 $ 3" = "Error: Invalid mathematical expression '10 $ 3'" ∧
    calculator "2 +" = "Error: Invalid mathematical expression '2 +'" :=
  ⟨by decide, by decide, by decide, by decide⟩

/-- C6 counterexample: the claim says every input containing an
identifier outside the symbol table fails with the UnknownName
classification; on the code, `1 or unknown_x` contains such an
identifier yet succeeds, because the disjunction short-circuits before
the name is evaluated. -/
theorem unknown_name_short_circuit_succeeds :
    calculator "1 or unknown_x" = "1" ∧
    calculator "1 or unknown_x" ≠ "Error: Unknown function or variable in '1 or unknown_x'" :=
  ⟨by decide, by decide⟩

/-- C6 as amended: every evaluation that reaches an unresolved
identifier raises the name-error exception and is consistently
classified as the UnknownName message — in particular both
`unknown_variable` and `hello + world` — but an unknown identifier that
evaluation never reaches does not force that classification. -/
theorem name_errors_classified_consistently :
    (∀ s m, calcEval s = Except.error (PyExc.nameError m) →
        calculator s = "Error: Unknown function or variable in '" ++ s ++ "'") ∧
    calculator "unknown_variable" = "Error: Unknown function or variable in 'unknown_variable'" ∧
    calculator "hello + world" = "Error: Unknown function or variable in 'hello + world'" := by
  refine ⟨?_, by decide, by decide⟩
  intro s m h
  have hdef : calculator s = match calcEval s with
      | .ok v => formatResult v
      | .error k => renderErr k s := rfl
  rw [hdef, h]
  rfl

/-- C6 witness: the unknown name raises the name-error exception and is
surfaced as the UnknownName message. -/
theorem name_errors_classified_consistently_witness :
    calcEval "unknown_variable" =
      Except.error (PyExc.nameError "name 'unknown_variable' is not defined") ∧
    calculator "unknown_variable" = "Error: Unknown function or variable in 'unknown_variable'" :=
  ⟨rfl, name_errors_classified_consistently.1 "unknown_variable" _ rfl⟩

/-- C7: an integer result is printed as a plain integer literal, an
integral float is printed with the decimal point dropped, every other
float keeps its default rendering, and in particular ten divided by two
prints as `5`. -/
theorem integral_results_format_without_decimal_point :
    (∀ n : Int, formatResult (PyVal.vint n) = intStr n) ∧
    (∀ q : ℚ, q.den = 1 → formatResult (PyVal.vfloat q) = intStr q.num) ∧
    (∀ q : ℚ, q.den ≠ 1 → formatResult (PyVal.vfloat q) = floatStr q) ∧
    calculator "10 / 2" = "5" := by
  refine ⟨fun n => rfl, fun q h => by simp [formatResult, h],
    fun q h => by simp [formatResult, h, pyStr], by decide⟩

/-- C7 witness: the integral float five and the non-integral float one
half. -/
theorem integral_results_format_without_decimal_point_witness :
    ((5 : ℚ).den = 1 ∧ formatResult (PyVal.vfloat 5) = intStr (5 : ℚ).num) ∧
    ((1 / 2 : ℚ).den ≠ 1 ∧ formatResult (PyVal.vfloat (1 / 2)) = floatStr (1 / 2)) :=
  ⟨⟨by decide, integral_results_format_without_decimal_point.2.1 5 (by decide)⟩,
   ⟨by decide, integral_results_format_without_decimal_point.2.2.1 (1 / 2) (by decide)⟩⟩

/-- C8: the calculator, as a transformer of the process-wide state it
could touch, returns that state unchanged, yields the same output when
called again on the same input, and its output depends only on the input
string and that read-only state. -/
theorem calculator_referentially_transparent (env : PyEnv) (s : String) :
    (calculatorCall s env).2 = env ∧
    (calculatorCall s ((calculatorCall s env).2)).1 = (calculatorCall s env).1 ∧
    (calculatorCall s env).1 = calculatorWith env s ∧
    calculator s = (calculatorCall s stdEnv).1 :=
  ⟨rfl, rfl, rfl, rfl⟩

/-- C9: the calculator returns a plain string on every input: a
successful evaluation is formatted in the same channel, and every
classified failure is reported in-band as a message carrying the literal
prefix, with no structurally tagged error value. -/
theorem errors_reported_in_band (s : String) :
    (∀ v, calcEval s = Except.ok v → calculator s = formatResult v) ∧
    (∀ k, calcEval s = Except.error k →
      calculator s = renderErr k s ∧ strStarts (renderErr k s) "Error:" = true) := by
  have hdef : calculator s = match calcEval s with
      | .ok v => formatResult v
      | .error k => renderErr k s := rfl
  constructor
  · intro v h; rw [hdef, h]
  · intro k h
    exact ⟨by rw [hdef, h], renderErr_starts_error k s⟩

/-- C9 witness: the division of ten by zero is reported in-band with the
prefixed message. -/
theorem errors_reported_in_band_witness :
    calcEval "10 / 0" = Except.error (PyExc.zeroDiv "division by zero") ∧
    (calculator "10 / 0" = renderErr (PyExc.zeroDiv "division by zero") "10 / 0" ∧
      strStarts (renderErr (PyExc.zeroDiv "division by zero") "10 / 0") "Error:" = true) :=
  ⟨rfl, (errors_reported_in_band "10 / 0").2 (PyExc.zeroDiv "division by zero") rfl⟩

/-- C10: a successful evaluation whose value is not a float is returned
through the success path as the plain rendering of that value, with no
error classification; in particular a comparison yields `True`. -/
theorem non_float_success_values_format_via_str :
    (∀ s v, calcEval s = Except.ok v → PyVal.isFloat v = false → calculator s = pyStr v) ∧
    calculator "1 < 2" = "True" := by
  refine ⟨?_, by decide⟩
  intro s v h hf
  have hdef : calculator s = match calcEval s with
      | .ok v => formatResult v
      | .error k => renderErr k s := rfl
  rw [hdef, h]
  cases v <;> first
    | rfl
    | simp [PyVal.isFloat] at hf

/-- C10 witness: the comparison of one and two. -/
theorem non_float_success_values_format_via_str_witness :
    calcEval "1 < 2" = Except.ok (PyVal.vbool true) ∧
    PyVal.isFloat (PyVal.vbool true) = false ∧
    calculator "1 < 2" = pyStr (PyVal.vbool true) :=
  ⟨rfl, rfl, non_float_success_values_format_via_str.1 "1 < 2" (PyVal.vbool true) rfl rfl⟩
